import Mathlib

/-!
Verification of the light repository: a shallow embedding of
queue-scheduler/src/main.rs (a polling daemon that counts pending rows and
emits one structured log record per tick) and stroller/src/config.rs (a
strict environment-variable reader), with theorems about both.
-/

namespace Light

/-! ## Strict env config reader, from stroller/src/config.rs -/

/-- A raw environment value as Rust std::env sees it: either a valid Unicode
string, or a value that is set but not valid Unicode (which std::env::var
reports as VarError::NotUnicode). -/
inductive EnvValue
  | unicode (s : String)
  | nonUnicode
deriving DecidableEq

/-- The process environment: each variable name is either unset (none) or set
to a raw value. -/
def Env : Type := String → Option EnvValue

/-- The error side of std::env::var. -/
inductive VarError
  | notPresent
  | notUnicode
deriving DecidableEq

/-- Embeds std::env::var: ok on a set Unicode value, notPresent when the
variable is unset, notUnicode when it is set but not valid Unicode. -/
def envVar (env : Env) (name : String) : Except VarError String :=
  match env name with
  | none => .error .notPresent
  | some .nonUnicode => .error .notUnicode
  | some (.unicode s) => .ok s

/-- Outcome of a config accessor: a returned string, or a fatal
process-terminating failure carrying the failure message. -/
inductive ConfigResult
  | ok (value : String)
  | fatal (msg : String)
deriving DecidableEq

/-- Embeds require_str from stroller/src/config.rs: unwrap the variable, and
on any error terminate the process with the message "name must be set"
(the closure ignores which error occurred). -/
def require_str (env : Env) (name : String) : ConfigResult :=
  match envVar env name with
  | .ok s => .ok s
  | .error _ => .fatal (name ++ " must be set")

/-- Embeds pusher_app_id from stroller/src/config.rs. -/
def pusher_app_id (env : Env) : ConfigResult :=
  require_str env "DARK_CONFIG_PUSHER_APP_ID"

/-- Embeds pusher_key from stroller/src/config.rs. -/
def pusher_key (env : Env) : ConfigResult :=
  require_str env "DARK_CONFIG_PUSHER_KEY"

/-- Embeds pusher_secret from stroller/src/config.rs. -/
def pusher_secret (env : Env) : ConfigResult :=
  require_str env "DARK_CONFIG_PUSHER_SECRET"

/-- Embeds pusher_host from stroller/src/config.rs. -/
def pusher_host (env : Env) : ConfigResult :=
  require_str env "DARK_CONFIG_PUSHER_HOST"

/-- A sample environment for concrete evaluation: the app id is set to
abc123, one variable is set to the empty string, one is set but not valid
Unicode, and everything else (in particular DARK_CONFIG_PUSHER_KEY) is
unset. -/
def envEx : Env := fun name =>
  if name = "DARK_CONFIG_PUSHER_APP_ID" then some (.unicode "abc123")
  else if name = "EMPTY_VAR" then some (.unicode "")
  else if name = "BAD_VAR" then some .nonUnicode
  else none

/-- A second sample environment that agrees with envEx on the four pusher
variables but differs everywhere else. -/
def envEx2 : Env := fun name =>
  if name = "DARK_CONFIG_PUSHER_APP_ID" then some (.unicode "abc123")
  else if name = "OTHER_VAR" then some (.unicode "noise")
  else if name = "EMPTY_VAR" then none
  else if name = "BAD_VAR" then some (.unicode "now readable")
  else none

/-! ## Queue scheduler, from queue-scheduler/src/main.rs

The process builds a JSON log sink on stdout, loads configuration, opens one
Postgres connection with TlsMode None, then loops forever: sleep one second,
run a fixed count query with unwrap, extract row 0 column 0 with unwrap, and
emit one info record. Everything fallible is an unwrap, so any failure is a
process abort. The embedding keeps the program text exact and treats the
outside world (environment, clock, database contents, failure outcomes) as
an oracle supplied per run. -/

/-- A row of the events table, as far as the one query observes it: only the
status column matters. -/
structure Row where
  status : String
deriving DecidableEq

/-- A snapshot of the events table at one instant. -/
structure DBState where
  events : List Row
deriving DecidableEq

/-- The exact SQL text the loop executes. -/
def schedulerQuery : String :=
  "SELECT COUNT(*) FROM events WHERE status = \x27new\x27"

/-- The value of SELECT COUNT(*) FROM events WHERE status = new against a
snapshot: the number of rows whose status column equals new, as the i64 the
code reads from row 0 column 0. -/
def countNew (db : DBState) : Int :=
  ((db.events.filter (fun r => r.status == "new")).length : Int)

/-- The database section of the scheduler config (cfg.database.url). -/
structure Database where
  url : String
deriving DecidableEq

/-- The scheduler config returned by config::load. -/
structure Config where
  database : Database
deriving DecidableEq

/-- One structured log record, with exactly the fields attached by the sink
in main.rs; dots in the source field names become underscores here. -/
structure LogRecord where
  meta_name : String
  meta_process_age_s : Nat
  timestamp : String
  msg : String
  new_events_count : Int
deriving DecidableEq

/-- The configuration of the JSON sink built in main: set_pretty false for
single-line output, and the static field meta.name. -/
structure JsonSinkSetup where
  pretty : Bool
  static_meta_name : String
deriving DecidableEq

/-- Embeds the sink construction in main.rs: slog_json on stdout with
set_pretty false and static meta.name queue-scheduler. -/
def sinkSetup : JsonSinkSetup :=
  { pretty := false, static_meta_name := "queue-scheduler" }

/-- The external world a run of the process observes: the outcome of the two
fallible startup steps, the database snapshot each tick queries (none when
the query itself fails), whether extracting row 0 column 0 succeeds, the
start instant and the monotonic clock in nanoseconds, and the local
wall-clock RFC3339 string at each emission. -/
structure World where
  loadResult : Option Config
  connectOk : Bool
  dbAtTick : Nat → Option DBState
  extractOk : Nat → Bool
  tStartNanos : Nat
  nowNanos : Nat → Nat
  localTimeAt : Nat → String

/-- Embeds t_start.elapsed().as_secs() at the emission point of tick n:
whole (truncated) seconds since the instant captured at process start. -/
def ageAt (w : World) (n : Nat) : Nat :=
  (w.nowNanos n - w.tStartNanos) / 1000000000

/-- The record the sink serializes for tick n given the snapshot db the
query observed: the static field, the two lazy field providers evaluated at
emission time, the message of the info call, and the queried count. -/
def tickLogRecord (w : World) (n : Nat) (db : DBState) : LogRecord :=
  { meta_name := sinkSetup.static_meta_name
    meta_process_age_s := ageAt w n
    timestamp := w.localTimeAt n
    msg := "tick"
    new_events_count := countNew db }

/-- The observable actions of the process, in order. -/
inductive Action
  | sleepSecs (secs : Nat)
  | runQuery (sql : String) (numParams : Nat)
  | connectDb (tlsEncrypted : Bool)
  | loadConfig
  | emitLog (level : String) (rec : LogRecord)
  | abortProcess
deriving DecidableEq

/-- Whether an action emits a log record. -/
def Action.isEmit : Action → Bool
  | .emitLog _ _ => true
  | _ => false

/-- Whether an action opens a database connection. -/
def Action.isConnect : Action → Bool
  | .connectDb _ => true
  | _ => false

/-- The actions of one iteration of the loop body in main.rs: sleep one
second, run the count query with an empty parameter list, then either abort
(the unwrap on the query, or the panic inside rows.get) or emit exactly one
info record. -/
def tickActions (w : World) (n : Nat) : List Action :=
  [.sleepSecs 1, .runQuery schedulerQuery 0] ++
    match w.dbAtTick n with
    | none => [.abortProcess]
    | some db =>
        if w.extractOk n then [.emitLog "info" (tickLogRecord w n db)]
        else [.abortProcess]

/-- The actions of main before the loop: config::load().unwrap(), then
Connection::connect(url, TlsMode::None).unwrap(). -/
def startupActions (w : World) : List Action :=
  .loadConfig ::
    match w.loadResult with
    | none => [.abortProcess]
    | some _ =>
        .connectDb false :: (if w.connectOk then [] else [.abortProcess])

/-- Whether both startup unwraps succeed, so the loop is entered. -/
def startupOk (w : World) : Bool :=
  w.loadResult.isSome && w.connectOk

/-- Whether tick n hits a fatal unwrap: the query fails or the extraction
from row 0 column 0 fails. -/
def tickCrashes (w : World) (n : Nat) : Bool :=
  (w.dbAtTick n).isNone || !w.extractOk n

/-- Whether the process is still alive when tick n would begin. -/
def aliveBefore (w : World) : Nat → Bool
  | 0 => startupOk w
  | n + 1 => aliveBefore w n && !tickCrashes w n

/-- Every record written to the log sink during startup and the first n tick
attempts: startup writes nothing, and each tick that runs and does not crash
appends its one record. -/
def emittedThrough (w : World) : Nat → List LogRecord
  | 0 => []
  | n + 1 =>
      emittedThrough w n ++
        (if aliveBefore w n && !tickCrashes w n then
          match w.dbAtTick n with
          | none => []
          | some db => [tickLogRecord w n db]
        else [])

/-- The full action trace of the process through the first n tick attempts. -/
def trace (w : World) : Nat → List Action
  | 0 => startupActions w
  | n + 1 => trace w n ++ (if aliveBefore w n then tickActions w n else [])

/-- A sample snapshot with two pending rows out of three. -/
def dbEx : DBState :=
  { events := [{ status := "new" }, { status := "done" }, { status := "new" }] }

/-- A sample world in which nothing ever fails: every tick sees dbEx and the
clock advances one second per tick. -/
def wEx : World :=
  { loadResult := some { database := { url := "postgres://localhost/dark" } }
    connectOk := true
    dbAtTick := fun _ => some dbEx
    extractOk := fun _ => true
    tStartNanos := 0
    nowNanos := fun n => (n + 1) * 1000000000
    localTimeAt := fun n => toString n }

/-- A sample world whose startup fails at config load. -/
def wBad : World :=
  { loadResult := none
    connectOk := true
    dbAtTick := fun _ => some dbEx
    extractOk := fun _ => true
    tStartNanos := 0
    nowNanos := fun n => n * 1000000000
    localTimeAt := fun n => toString n }

/-- A sample world in which the query of tick 2 fails. -/
def wCrash : World :=
  { loadResult := some { database := { url := "postgres://localhost/dark" } }
    connectOk := true
    dbAtTick := fun n => if n < 2 then some dbEx else none
    extractOk := fun _ => true
    tStartNanos := 0
    nowNanos := fun n => (n + 1) * 1000000000
    localTimeAt := fun n => toString n }

end Light

namespace Light

/-- C2: require_str returns the exact string value of the named environment
variable when it is set, including the empty string, and when the variable is
unset it does not return a default but terminates fatally with the message
"name must be set". -/
theorem C2_require_str_strict (env : Env) (name s : String) :
    (env name = some (.unicode s) → require_str env name = .ok s) ∧
    (env name = none →
      require_str env name = .fatal (name ++ " must be set")) := by
  constructor <;> intro h <;> simp [require_str, envVar, h]

/-- Witness for C2: in the sample environment, the empty-string variable is
returned exactly, and an unset variable produces the fatal message. -/
theorem C2_require_str_strict_witness :
    require_str envEx "EMPTY_VAR" = .ok "" ∧
    require_str envEx "MISSING_VAR" =
      .fatal ("MISSING_VAR" ++ " must be set") :=
  ⟨(C2_require_str_strict envEx "EMPTY_VAR" "").1 (by decide),
   (C2_require_str_strict envEx "MISSING_VAR" "").2 (by decide)⟩

/-- C5: each pusher accessor is exactly the strict primitive applied to its
one fixed variable name, with no caching and no further validation; with the
app id set to abc123 the app-id accessor returns exactly abc123, and with the
key unset the key accessor terminates with the message
DARK_CONFIG_PUSHER_KEY must be set. -/
theorem C5_pusher_accessors (env : Env) :
    pusher_app_id env = require_str env "DARK_CONFIG_PUSHER_APP_ID" ∧
    pusher_key env = require_str env "DARK_CONFIG_PUSHER_KEY" ∧
    pusher_secret env = require_str env "DARK_CONFIG_PUSHER_SECRET" ∧
    pusher_host env = require_str env "DARK_CONFIG_PUSHER_HOST" ∧
    (env "DARK_CONFIG_PUSHER_APP_ID" = some (.unicode "abc123") →
      pusher_app_id env = .ok "abc123") ∧
    (env "DARK_CONFIG_PUSHER_KEY" = none →
      pusher_key env = .fatal "DARK_CONFIG_PUSHER_KEY must be set") := by
  refine ⟨rfl, rfl, rfl, rfl, fun h => ?_, fun h => ?_⟩
  · simp [pusher_app_id, require_str, envVar, h]
  · simp [pusher_key, require_str, envVar, h]

/-- Witness for C5: the sample environment has the app id set to abc123 and
the key unset; the accessors behave as the theorem states. -/
theorem C5_pusher_accessors_witness :
    pusher_app_id envEx = .ok "abc123" ∧
    pusher_key envEx = .fatal "DARK_CONFIG_PUSHER_KEY must be set" :=
  ⟨(C5_pusher_accessors envEx).2.2.2.2.1 (by decide),
   (C5_pusher_accessors envEx).2.2.2.2.2 (by decide)⟩

/-- C9: each pusher accessor depends only on its own variable: environments
that agree on that one variable produce identical results, whatever the rest
of the environment holds; likewise require_str depends only on the named
variable. -/
theorem C9_accessor_noninterference (env1 env2 : Env) :
    (∀ name, env1 name = env2 name →
      require_str env1 name = require_str env2 name) ∧
    (env1 "DARK_CONFIG_PUSHER_APP_ID" = env2 "DARK_CONFIG_PUSHER_APP_ID" →
      pusher_app_id env1 = pusher_app_id env2) ∧
    (env1 "DARK_CONFIG_PUSHER_KEY" = env2 "DARK_CONFIG_PUSHER_KEY" →
      pusher_key env1 = pusher_key env2) ∧
    (env1 "DARK_CONFIG_PUSHER_SECRET" = env2 "DARK_CONFIG_PUSHER_SECRET" →
      pusher_secret env1 = pusher_secret env2) ∧
    (env1 "DARK_CONFIG_PUSHER_HOST" = env2 "DARK_CONFIG_PUSHER_HOST" →
      pusher_host env1 = pusher_host env2) := by
  have base : ∀ name, env1 name = env2 name →
      require_str env1 name = require_str env2 name := by
    intro name h
    simp [require_str, envVar, h]
  exact ⟨base, fun h => base _ h, fun h => base _ h, fun h => base _ h,
    fun h => base _ h⟩

/-- Witness for C9: the two sample environments differ on several variables
but agree on the pusher key (both unset), so the key accessor produces the
same result on both. -/
theorem C9_accessor_noninterference_witness :
    pusher_key envEx = pusher_key envEx2 :=
  (C9_accessor_noninterference envEx envEx2).2.2.1 (by decide)

/-- C10: a variable that is set but not valid Unicode is treated exactly like
an unset one: require_str terminates fatally with the same message
"name must be set", and its result is indistinguishable from the result on
any environment where the variable is unset. -/
theorem C10_non_unicode_fatal (env : Env) (name : String)
    (h : env name = some .nonUnicode) :
    require_str env name = .fatal (name ++ " must be set") ∧
    (∀ env2 : Env, env2 name = none →
      require_str env name = require_str env2 name) := by
  constructor
  · simp [require_str, envVar, h]
  · intro env2 h2
    simp [require_str, envVar, h, h2]

/-- Witness for C10: in the sample environment, BAD_VAR is set but not valid
Unicode; require_str fails fatally with the same message an unset variable
would produce. -/
theorem C10_non_unicode_fatal_witness :
    require_str envEx "BAD_VAR" = .fatal ("BAD_VAR" ++ " must be set") :=
  (C10_non_unicode_fatal envEx "BAD_VAR" (by decide)).1

/-- Once a tick hits a fatal unwrap, the process is dead before the next
tick. -/
theorem tickCrashes_kills (w : World) {m : Nat} (h : tickCrashes w m = true) :
    aliveBefore w (m + 1) = false := by
  simp [aliveBefore, h]

/-- Death is permanent: once the process is dead before tick m, it is dead
before every later tick. -/
theorem aliveBefore_false_mono (w : World) {m n : Nat} (hmn : m ≤ n)
    (h : aliveBefore w m = false) : aliveBefore w n = false := by
  induction n with
  | zero =>
      have hm0 : m = 0 := Nat.le_zero.mp hmn
      rw [hm0] at h
      exact h
  | succ k ih =>
      by_cases hmk : m ≤ k
      · simp [aliveBefore, ih hmk]
      · have hmk1 : m = k + 1 := by omega
        rw [hmk1] at h
        exact h

/-- A process whose startup fails never writes a record. -/
theorem emittedThrough_nil (w : World) (h : startupOk w = false) :
    ∀ n, emittedThrough w n = []
  | 0 => rfl
  | n + 1 => by
      have h0 : aliveBefore w 0 = false := h
      have hal : aliveBefore w n = false :=
        aliveBefore_false_mono w (Nat.zero_le n) h0
      simp [emittedThrough, hal, emittedThrough_nil w h n]

/-- After a fatal tick, the set of emitted records never grows again. -/
theorem emittedThrough_frozen (w : World) {m n : Nat} (hmn : m ≤ n)
    (h : tickCrashes w m = true) :
    emittedThrough w n = emittedThrough w m := by
  induction n with
  | zero =>
      have hm0 : m = 0 := Nat.le_zero.mp hmn
      rw [hm0]
  | succ k ih =>
      by_cases hmk : m ≤ k
      · have hdead : (aliveBefore w k && !tickCrashes w k) = false := by
          rcases Nat.lt_or_ge m k with hlt | hge
          · have hk : aliveBefore w k = false :=
              aliveBefore_false_mono w hlt (tickCrashes_kills w h)
            simp [hk]
          · have hmk2 : m = k := Nat.le_antisymm hmk hge
            rw [← hmk2, h]
            simp
        simp [emittedThrough, hdead, ih hmk]
      · have hmk1 : m = k + 1 := by omega
        rw [hmk1]

/-- C1: on every completed iteration of the loop, the program first sleeps
one second, then runs the parameterless count query, then emits exactly one
info-level record with message tick whose new_events count equals the number
of rows with status new in the snapshot the query observed. -/
theorem C1_tick_emits_exact_count (w : World) (n : Nat) (db : DBState)
    (hq : w.dbAtTick n = some db) (hx : w.extractOk n = true) :
    tickActions w n =
      [.sleepSecs 1, .runQuery schedulerQuery 0,
        .emitLog "info" (tickLogRecord w n db)] ∧
    (tickLogRecord w n db).msg = "tick" ∧
    (tickLogRecord w n db).new_events_count =
      ((db.events.filter (fun r => r.status == "new")).length : Int) ∧
    ((tickActions w n).filter Action.isEmit).length = 1 := by
  have hact : tickActions w n =
      [.sleepSecs 1, .runQuery schedulerQuery 0,
        .emitLog "info" (tickLogRecord w n db)] := by
    simp [tickActions, hq, hx]
  refine ⟨hact, rfl, rfl, ?_⟩
  rw [hact]
  simp [Action.isEmit]

/-- Witness for C1: in the all-success sample world, tick 0 sees two pending
rows out of three and emits exactly one record counting them. -/
theorem C1_tick_emits_exact_count_witness :
    tickActions wEx 0 =
      [.sleepSecs 1, .runQuery schedulerQuery 0,
        .emitLog "info" (tickLogRecord wEx 0 dbEx)] ∧
    (tickLogRecord wEx 0 dbEx).msg = "tick" ∧
    (tickLogRecord wEx 0 dbEx).new_events_count = 2 ∧
    ((tickActions wEx 0).filter Action.isEmit).length = 1 := by
  have h := C1_tick_emits_exact_count wEx 0 dbEx rfl rfl
  refine ⟨h.1, h.2.1, ?_, h.2.2.2⟩
  rw [h.2.2.1]
  decide

/-- C3: any failure in loading configuration, connecting, querying, or
extracting the count aborts the process with no retry and no recovery, and
the error path never reaches the log-emission step: a failed startup emits
nothing ever, a fatal tick freezes the emitted-record list permanently, and
neither a crashing tick nor startup contains an emit action. -/
theorem C3_fatal_no_log (w : World) :
    (startupOk w = false → ∀ n, emittedThrough w n = []) ∧
    (∀ m n, tickCrashes w m = true → m ≤ n →
      emittedThrough w n = emittedThrough w m) ∧
    (∀ n, tickCrashes w n = true →
      (tickActions w n).filter Action.isEmit = [] ∧
      Action.abortProcess ∈ tickActions w n) ∧
    (startupOk w = false → Action.abortProcess ∈ startupActions w) ∧
    (startupActions w).filter Action.isEmit = [] := by
  refine ⟨fun h n => emittedThrough_nil w h n,
    fun m n hc hmn => emittedThrough_frozen w hmn hc, ?_, ?_, ?_⟩
  · intro n hc
    cases hdb : w.dbAtTick n with
    | none => simp [tickActions, hdb, Action.isEmit]
    | some db =>
        have hx : w.extractOk n = false := by
          simpa [tickCrashes, hdb] using hc
        simp [tickActions, hdb, hx, Action.isEmit]
  · intro h
    cases hl : w.loadResult with
    | none => simp [startupActions, hl]
    | some cfg =>
        have hc : w.connectOk = false := by
          simpa [startupOk, hl] using h
        simp [startupActions, hl, hc]
  · cases hl : w.loadResult with
    | none => simp [startupActions, hl, Action.isEmit]
    | some cfg =>
        cases hc : w.connectOk <;>
          simp [startupActions, hl, hc, Action.isEmit]

/-- Witness for C3: a failed config load emits nothing through tick 3; the
world whose tick 2 query fails emits nothing after tick 2, and tick 2 itself
contains no emit action. -/
theorem C3_fatal_no_log_witness :
    emittedThrough wBad 3 = [] ∧
    emittedThrough wCrash 5 = emittedThrough wCrash 2 ∧
    (tickActions wCrash 2).filter Action.isEmit = [] :=
  ⟨(C3_fatal_no_log wBad).1 (by decide) 3,
   (C3_fatal_no_log wCrash).2.1 2 5 (by decide) (by decide),
   ((C3_fatal_no_log wCrash).2.2.1 2 (by decide)).1⟩

/-- C4: the sink is non-pretty (single-line JSON), and every emitted record
carries exactly the five fields: meta.name fixed to queue-scheduler,
meta.process_age_s computed at emission time, the local RFC3339 timestamp
captured at emission time, the message, and the queried count; every record
in the emitted list arises this way from some completed tick. -/
theorem C4_record_shape (w : World) :
    sinkSetup.pretty = false ∧
    (∀ n db, tickLogRecord w n db =
      { meta_name := "queue-scheduler"
        meta_process_age_s := ageAt w n
        timestamp := w.localTimeAt n
        msg := "tick"
        new_events_count := countNew db }) ∧
    (∀ N r, r ∈ emittedThrough w N →
      ∃ n db, n < N ∧ w.dbAtTick n = some db ∧ r = tickLogRecord w n db) := by
  refine ⟨rfl, fun n db => rfl, ?_⟩
  intro N
  induction N with
  | zero =>
      intro r hr
      simp [emittedThrough] at hr
  | succ k ih =>
      intro r hr
      simp only [emittedThrough] at hr
      rcases List.mem_append.mp hr with h1 | h2
      · obtain ⟨n, db, hn, hdb, hrec⟩ := ih r h1
        exact ⟨n, db, Nat.lt_succ_of_lt hn, hdb, hrec⟩
      · by_cases hcond : (aliveBefore w k && !tickCrashes w k) = true
        · rw [if_pos hcond] at h2
          cases hdb : w.dbAtTick k with
          | none =>
              rw [hdb] at h2
              simp at h2
          | some db =>
              rw [hdb] at h2
              simp at h2
              exact ⟨k, db, Nat.lt_succ_self k, hdb, h2⟩
        · rw [if_neg hcond] at h2
          simp at h2

/-- Witness for C4: the record of tick 0 in the all-success sample world is
in the emitted list after one tick, and arises from a completed tick. -/
theorem C4_record_shape_witness :
    sinkSetup.pretty = false ∧
    (∃ n db, n < 1 ∧ wEx.dbAtTick n = some db ∧
      tickLogRecord wEx 0 dbEx = tickLogRecord wEx n db) :=
  ⟨(C4_record_shape wEx).1,
   (C4_record_shape wEx).2.2 1 (tickLogRecord wEx 0 dbEx) (by decide)⟩

/-- C6: between any two ticks in order, when the monotonic clock has not gone
backwards, the emitted meta.process_age_s is non-decreasing, and at each tick
it equals the truncated whole seconds elapsed since the start instant. -/
theorem C6_age_monotone (w : World) (m n : Nat) (dbm dbn : DBState)
    (_hmn : m ≤ n) (hclock : w.nowNanos m ≤ w.nowNanos n) :
    (tickLogRecord w m dbm).meta_process_age_s ≤
      (tickLogRecord w n dbn).meta_process_age_s ∧
    (tickLogRecord w n dbn).meta_process_age_s =
      (w.nowNanos n - w.tStartNanos) / 1000000000 := by
  constructor
  · show ageAt w m ≤ ageAt w n
    exact Nat.div_le_div_right (Nat.sub_le_sub_right hclock _)
  · rfl

/-- Witness for C6: in the all-success sample world, the age at tick 3 is at
least the age at tick 0 and equals the truncated elapsed seconds. -/
theorem C6_age_monotone_witness :
    (tickLogRecord wEx 0 dbEx).meta_process_age_s ≤
      (tickLogRecord wEx 3 dbEx).meta_process_age_s ∧
    (tickLogRecord wEx 3 dbEx).meta_process_age_s =
      (wEx.nowNanos 3 - wEx.tStartNanos) / 1000000000 :=
  C6_age_monotone wEx 0 3 dbEx dbEx (by decide) (by decide)

/-- C7: at most one database connection ever exists: the startup actions
contain exactly one connect when config load succeeded and none otherwise,
that connect uses no transport encryption, no tick ever connects, and hence
the full trace holds at most one connect, all before the loop. -/
theorem C7_single_connection (w : World) (n : Nat) :
    (startupActions w).filter Action.isConnect =
      (if w.loadResult.isSome then [Action.connectDb false] else []) ∧
    (∀ m, (tickActions w m).filter Action.isConnect = []) ∧
    (trace w n).filter Action.isConnect =
      (startupActions w).filter Action.isConnect ∧
    ((trace w n).filter Action.isConnect).length ≤ 1 := by
  have hstart : (startupActions w).filter Action.isConnect =
      (if w.loadResult.isSome then [Action.connectDb false] else []) := by
    cases hl : w.loadResult with
    | none => simp [startupActions, hl, Action.isConnect]
    | some cfg =>
        cases hc : w.connectOk <;>
          simp [startupActions, hl, hc, Action.isConnect]
  have htick : ∀ m, (tickActions w m).filter Action.isConnect = [] := by
    intro m
    cases hdb : w.dbAtTick m with
    | none => simp [tickActions, hdb, Action.isConnect]
    | some db =>
        cases hx : w.extractOk m <;>
          simp [tickActions, hdb, hx, Action.isConnect]
  have htrace : (trace w n).filter Action.isConnect =
      (startupActions w).filter Action.isConnect := by
    induction n with
    | zero => rfl
    | succ k ih =>
        by_cases ha : aliveBefore w k = true
        · simp [trace, List.filter_append, ha, htick k, ih]
        · have ha2 : aliveBefore w k = false := by simpa using ha
          simp [trace, List.filter_append, ha2, ih]

  refine ⟨hstart, htick, htrace, ?_⟩
  rw [htrace, hstart]
  cases w.loadResult.isSome <;> simp

/-- C8: the loop has no exit condition: when startup succeeds and no tick
ever hits a fatal unwrap, the process is alive before every tick and has
emitted exactly one record per tick (the run diverges); conversely the only
way the process stops is a startup failure or a fatal tick. -/
theorem C8_loop_never_exits (w : World) :
    (startupOk w = true → (∀ m, tickCrashes w m = false) →
      ∀ n, aliveBefore w n = true ∧ (emittedThrough w n).length = n) ∧
    (∀ n, aliveBefore w n = false →
      startupOk w = false ∨ ∃ m, m < n ∧ tickCrashes w m = true) := by
  constructor
  · intro hs hna n
    induction n with
    | zero => exact ⟨hs, rfl⟩
    | succ k ih =>
        obtain ⟨ha, hlen⟩ := ih
        have ha1 : aliveBefore w (k + 1) = true := by
          simp [aliveBefore, ha, hna k]
        refine ⟨ha1, ?_⟩
        cases hdb : w.dbAtTick k with
        | none =>
            exfalso
            have := hna k
            simp [tickCrashes, hdb] at this
        | some db =>
            simp [emittedThrough, ha, hna k, hdb, hlen]
  · intro n
    induction n with
    | zero => intro h; exact Or.inl h
    | succ k ih =>
        intro h
        by_cases hk : aliveBefore w k = true
        · have hc : tickCrashes w k = true := by
            simp [aliveBefore, hk] at h
            exact h
          exact Or.inr ⟨k, Nat.lt_succ_self k, hc⟩
        · have hk2 : aliveBefore w k = false := by simpa using hk
          rcases ih hk2 with hl | ⟨m, hm, hc⟩
          · exact Or.inl hl
          · exact Or.inr ⟨m, Nat.lt_succ_of_lt hm, hc⟩

/-- Witness for C8: in the all-success sample world, after four tick
attempts the process is still alive and has emitted four records. -/
theorem C8_loop_never_exits_witness :
    aliveBefore wEx 4 = true ∧ (emittedThrough wEx 4).length = 4 :=
  (C8_loop_never_exits wEx).1 rfl (fun _ => rfl) 4

end Light
